import Mathlib

/-!
# Verification of the RCA 1802 (COSMAC) emulator and assembler

Shallow embedding of the repository's core: the opcode table and
instruction model (`src/cpu/instruction.rs`), the CPU state container
(`src/cpu/state.rs`), the executor (`src/cpu/executor.rs`), the
single-step driver (`src/wasm.rs`, `Emulator::step`), and the two-pass
assembler (`src/assembler.rs`).

Machine integers are modelled as `Nat` with explicit wrap-around
(`% 256`, `% 65536`) exactly where the Rust code performs wrapping or
overflowing arithmetic; `u8`/`u16` struct fields become `Nat` fields and
theorems add the corresponding range hypotheses where they matter.
Fallible Rust functions returning `Result` become `Except`; functions
taking `&mut Cpu` and returning `Result<(), E>` become functions
returning the pair `(Except E Unit) × Cpu` (result, final state), which
is faithful here because in every helper of `executor.rs` a fallible
call happens before any state mutation, so on error the Rust `Cpu` is
unchanged.
-/

set_option maxRecDepth 4096

namespace RCA1802

/-! ## Opcode table (`src/cpu/instruction.rs`) -/

/-- The `Opcode` enum: one constructor per operation, as in the source. -/
inductive Opcode where
  | IDL | LDN | INC | DEC
  | BR | BQ | BZ | BDF | B1 | B2 | B3 | B4
  | SKP | BNQ | BNZ | BNF | BN1 | BN2 | BN3 | BN4
  | LDA | STR
  | IRX | OUT | INP
  | RET | DIS | LDXA | STXD | ADC | SDB | SHRC | SMB
  | SAV | MARK | REQ | SEQ | ADCI | SDBI | SHLC | SMBI
  | GLO | GHI | PLO | PHI
  | LBR | LBQ | LBZ | LBDF | NOP | LSNQ | LSNZ | LSNF
  | LSKP | LBNQ | LBNZ | LBNF | LSIE | LSQ | LSZ | LSDF
  | SEP | SEX
  | LDX | OR | AND | XOR | ADD | SD | SHR | SM
  | LDI | ORI | ANI | XRI | ADI | SDI | SHL | SMI
  deriving DecidableEq

/-- `Opcode::from_byte`: decode an opcode from a byte.  The Rust `match`
on a `u8` with ranges is rendered as an ordered chain of tests; the
final `none` branch is unreachable for `b < 256` (the Rust match is
exhaustive over `u8`). -/
def Opcode.from_byte (b : Nat) : Option Opcode :=
  if b = 0x00 then some .IDL
  else if b ≤ 0x0F then some .LDN        -- 0x01..=0x0F
  else if b ≤ 0x1F then some .INC        -- 0x10..=0x1F
  else if b ≤ 0x2F then some .DEC        -- 0x20..=0x2F
  else if b = 0x30 then some .BR
  else if b = 0x31 then some .BQ
  else if b = 0x32 then some .BZ
  else if b = 0x33 then some .BDF
  else if b = 0x34 then some .B1
  else if b = 0x35 then some .B2
  else if b = 0x36 then some .B3
  else if b = 0x37 then some .B4
  else if b = 0x38 then some .SKP
  else if b = 0x39 then some .BNQ
  else if b = 0x3A then some .BNZ
  else if b = 0x3B then some .BNF
  else if b = 0x3C then some .BN1
  else if b = 0x3D then some .BN2
  else if b = 0x3E then some .BN3
  else if b = 0x3F then some .BN4
  else if b ≤ 0x4F then some .LDA        -- 0x40..=0x4F
  else if b ≤ 0x5F then some .STR        -- 0x50..=0x5F
  else if b = 0x60 then some .IRX
  else if b ≤ 0x67 then some .OUT        -- 0x61..=0x67
  else if b = 0x68 then some .IRX        -- 68 is also IRX
  else if b ≤ 0x6F then some .INP        -- 0x69..=0x6F
  else if b = 0x70 then some .RET
  else if b = 0x71 then some .DIS
  else if b = 0x72 then some .LDXA
  else if b = 0x73 then some .STXD
  else if b = 0x74 then some .ADC
  else if b = 0x75 then some .SDB
  else if b = 0x76 then some .SHRC
  else if b = 0x77 then some .SMB
  else if b = 0x78 then some .SAV
  else if b = 0x79 then some .MARK
  else if b = 0x7A then some .REQ
  else if b = 0x7B then some .SEQ
  else if b = 0x7C then some .ADCI
  else if b = 0x7D then some .SDBI
  else if b = 0x7E then some .SHLC
  else if b = 0x7F then some .SMBI
  else if b ≤ 0x8F then some .GLO        -- 0x80..=0x8F
  else if b ≤ 0x9F then some .GHI        -- 0x90..=0x9F
  else if b ≤ 0xAF then some .PLO        -- 0xA0..=0xAF
  else if b ≤ 0xBF then some .PHI        -- 0xB0..=0xBF
  else if b = 0xC0 then some .LBR
  else if b = 0xC1 then some .LBQ
  else if b = 0xC2 then some .LBZ
  else if b = 0xC3 then some .LBDF
  else if b = 0xC4 then some .NOP
  else if b = 0xC5 then some .LSNQ
  else if b = 0xC6 then some .LSNZ
  else if b = 0xC7 then some .LSNF
  else if b = 0xC8 then some .LSKP
  else if b = 0xC9 then some .LBNQ
  else if b = 0xCA then some .LBNZ
  else if b = 0xCB then some .LBNF
  else if b = 0xCC then some .LSIE
  else if b = 0xCD then some .LSQ
  else if b = 0xCE then some .LSZ
  else if b = 0xCF then some .LSDF
  else if b ≤ 0xDF then some .SEP        -- 0xD0..=0xDF
  else if b ≤ 0xEF then some .SEX        -- 0xE0..=0xEF
  else if b = 0xF0 then some .LDX
  else if b = 0xF1 then some .OR
  else if b = 0xF2 then some .AND
  else if b = 0xF3 then some .XOR
  else if b = 0xF4 then some .ADD
  else if b = 0xF5 then some .SD
  else if b = 0xF6 then some .SHR
  else if b = 0xF7 then some .SM
  else if b = 0xF8 then some .LDI
  else if b = 0xF9 then some .ORI
  else if b = 0xFA then some .ANI
  else if b = 0xFB then some .XRI
  else if b = 0xFC then some .ADI
  else if b = 0xFD then some .SDI
  else if b = 0xFE then some .SHL
  else if b = 0xFF then some .SMI
  else none

/-- `Opcode::length`: encoded length of the instruction in bytes. -/
def Opcode.length : Opcode → Nat
  -- Most instructions are 1 byte
  | .IDL | .LDN | .INC | .DEC | .LDA | .STR | .IRX | .OUT | .INP
  | .RET | .DIS | .LDXA | .STXD | .ADC | .SDB | .SHRC | .SMB
  | .SAV | .MARK | .REQ | .SEQ | .GLO | .GHI | .PLO | .PHI
  | .NOP | .SEP | .SEX | .LDX | .OR | .AND | .XOR | .ADD
  | .SD | .SHR | .SM | .SHL => 1
  -- Short branches and immediate operations are 2 bytes
  | .BR | .BQ | .BZ | .BDF | .B1 | .B2 | .B3 | .B4
  | .SKP | .BNQ | .BNZ | .BNF | .BN1 | .BN2 | .BN3 | .BN4
  | .ADCI | .SDBI | .SHLC | .SMBI
  | .LDI | .ORI | .ANI | .XRI | .ADI | .SDI | .SMI => 2
  -- Long branches and skips are 3 bytes
  | .LBR | .LBQ | .LBZ | .LBDF | .LSNQ | .LSNZ | .LSNF | .LSKP
  | .LBNQ | .LBNZ | .LBNF | .LSIE | .LSQ | .LSZ | .LSDF => 3

/-! ## Instruction model (`src/cpu/instruction.rs`) -/

/-- Decoded instruction: opcode plus register field, optional immediate
byte and optional 16-bit address. -/
structure Instruction where
  opcode : Opcode
  register : Nat          -- N field (0-15)
  immediate : Option Nat  -- immediate byte for 2-byte instructions
  address : Option Nat    -- 16-bit address for long branches
  deriving DecidableEq

/-- `Instruction::new`. -/
def Instruction.new (opcode : Opcode) (register : Nat) : Instruction :=
  ⟨opcode, register, none, none⟩

/-- `Instruction::with_immediate`. -/
def Instruction.with_immediate (opcode : Opcode) (register : Nat) (immediate : Nat) :
    Instruction :=
  ⟨opcode, register, some immediate, none⟩

/-- `Instruction::with_address`. -/
def Instruction.with_address (opcode : Opcode) (register : Nat) (address : Nat) :
    Instruction :=
  ⟨opcode, register, none, some address⟩

/-- `Instruction::decode`: decode an instruction from bytes. -/
def Instruction.decode (bytes : List Nat) : Option Instruction :=
  match bytes with
  | [] => none
  | byte :: rest =>
    match Opcode.from_byte byte with
    | none => none
    | some opcode =>
      let register := byte &&& 0x0F   -- low nibble is register number
      match opcode.length with
      | 1 => some (Instruction.new opcode register)
      | 2 =>
        match rest with
        | [] => none                  -- bytes.len() < 2
        | b1 :: _ => some (Instruction.with_immediate opcode register b1)
      | 3 =>
        match rest with
        | b1 :: b2 :: _ =>            -- big-endian address
          some (Instruction.with_address opcode register ((b1 <<< 8) ||| b2))
        | _ => none                   -- bytes.len() < 3
      | _ => none

/-- `Instruction::get_base_opcode`: the source is explicitly a
placeholder ("This is a simplified version - would need full opcode
table"); every opcode not listed falls through to `0x00`. -/
def Instruction.get_base_opcode (i : Instruction) : Nat :=
  match i.opcode with
  | .IDL => 0x00
  | .LDN => i.register &&& 0x0F
  | .INC => 0x10 ||| (i.register &&& 0x0F)
  | .DEC => 0x20 ||| (i.register &&& 0x0F)
  | .LDI => 0xF8
  | .NOP => 0xC4
  | _ => 0x00                         -- placeholder in the source

/-- `Instruction::encode`: base opcode byte, then the immediate byte if
present, then the address (high byte first) if present. -/
def Instruction.encode (i : Instruction) : List Nat :=
  [i.get_base_opcode]
    ++ (match i.immediate with | some imm => [imm] | none => [])
    ++ (match i.address with
        | some addr => [(addr >>> 8) % 256, addr % 256]  -- high, then low (as u8)
        | none => [])

/-! ## CPU state (`src/cpu/state.rs`) -/

/-- `CpuError` from `src/cpu/state.rs`. -/
inductive CpuError where
  | InvalidRegister (n : Nat)
  | MemoryOutOfBounds (addr : Nat)
  | InvalidInstruction (addr : Nat)
  | Halted
  deriving DecidableEq

/-- The CPU state.  `u16` registers and `u8`/4-bit fields are `Nat`s;
`p` and `x` are `Fin 16` (the Rust code masks every write with
`& 0x0F`, and indexing `registers[p]` requires `p < 16`).  Memory is a
total function on addresses; the Rust vector has exactly 65536 entries
and is only ever indexed by `u16` values. -/
structure Cpu where
  registers : Fin 16 → Nat   -- 16 general-purpose 16-bit registers
  d : Nat                    -- 8-bit accumulator
  df : Bool                  -- data flag (carry/borrow/shift out)
  p : Fin 16                 -- program counter selector
  x : Fin 16                 -- index register selector
  ie : Bool                  -- interrupt enable
  q : Bool                   -- Q output bit
  memory : Nat → Nat         -- 64KB main memory
  halted : Bool              -- halted latch
  cycles : Nat               -- cycle counter
  instructions_executed : Nat

/-- `Cpu::new`: power-on reset state. -/
def Cpu.new : Cpu :=
  { registers := fun _ => 0
    d := 0
    df := false
    p := 0
    x := 0
    ie := true
    q := false
    memory := fun _ => 0
    halted := false
    cycles := 0
    instructions_executed := 0 }

/-- `Cpu::get_pc`: value of the register selected by P. -/
def Cpu.get_pc (cpu : Cpu) : Nat := cpu.registers cpu.p

/-- `Cpu::set_pc`. -/
def Cpu.set_pc (cpu : Cpu) (value : Nat) : Cpu :=
  { cpu with registers := Function.update cpu.registers cpu.p value }

/-- `Cpu::get_x_register`. -/
def Cpu.get_x_register (cpu : Cpu) : Nat := cpu.registers cpu.x

/-- `Cpu::set_x_register`. -/
def Cpu.set_x_register (cpu : Cpu) (value : Nat) : Cpu :=
  { cpu with registers := Function.update cpu.registers cpu.x value }

/-- `Cpu::get_register` (fails on an index > 15). -/
def Cpu.get_register (cpu : Cpu) (reg : Nat) : Except CpuError Nat :=
  if h : reg > 15 then .error (.InvalidRegister reg)
  else .ok (cpu.registers ⟨reg, by omega⟩)

/-- `Cpu::set_register`. -/
def Cpu.set_register (cpu : Cpu) (reg : Nat) (value : Nat) :
    Except CpuError Cpu :=
  if h : reg > 15 then .error (.InvalidRegister reg)
  else .ok { cpu with registers := Function.update cpu.registers ⟨reg, by omega⟩ value }

/-- `Cpu::read_byte` (infallible: every `u16` address is in range). -/
def Cpu.read_byte (cpu : Cpu) (addr : Nat) : Except CpuError Nat :=
  .ok (cpu.memory addr)

/-- `Cpu::write_byte`. -/
def Cpu.write_byte (cpu : Cpu) (addr value : Nat) : Except CpuError Cpu :=
  .ok { cpu with memory := Function.update cpu.memory addr value }

/-- `Cpu::is_halted`. -/
def Cpu.is_halted (cpu : Cpu) : Bool := cpu.halted

/-- `Cpu::halt`. -/
def Cpu.halt (cpu : Cpu) : Cpu := { cpu with halted := true }

/-! ## Machine-arithmetic helpers

`u8::overflowing_add`, `u8::overflowing_sub` and `u16::wrapping_add`
for operands already in range. -/

/-- `u8::overflowing_add`: wrapped sum and carry-out. -/
def overflowing_add8 (a b : Nat) : Nat × Bool :=
  ((a + b) % 256, decide (256 ≤ a + b))

/-- `u8::overflowing_sub`: wrapped difference and borrow flag
(`a < b`). -/
def overflowing_sub8 (a b : Nat) : Nat × Bool :=
  ((a + 256 - b) % 256, decide (a < b))

/-- `u16::wrapping_add`. -/
def wrapping_add16 (a b : Nat) : Nat := (a + b) % 65536

/-- `u16::wrapping_sub`. -/
def wrapping_sub16 (a b : Nat) : Nat := (a + 65536 - b) % 65536

/-! ## Executor (`src/cpu/executor.rs`)

Each `execute_*` helper takes the state and returns
`Except CpuError Cpu`.  In the source every fallible call happens
before any mutation, so `Except.error` faithfully means "state
unchanged". -/

/-- IDL - Idle (halt until interrupt). -/
def execute_idl (cpu : Cpu) : Except CpuError Cpu :=
  .ok cpu.halt

/-- LDN - Load via N: D = M(RN). -/
def execute_ldn (cpu : Cpu) (n : Nat) : Except CpuError Cpu := do
  let addr ← cpu.get_register n
  let v ← cpu.read_byte addr
  .ok { cpu with d := v }

/-- LDA - Load advance: D = M(RN), RN++. -/
def execute_lda (cpu : Cpu) (n : Nat) : Except CpuError Cpu := do
  let addr ← cpu.get_register n
  let v ← cpu.read_byte addr
  let cpu := { cpu with d := v }
  cpu.set_register n (wrapping_add16 addr 1)

/-- LDX - Load via X: D = M(RX). -/
def execute_ldx (cpu : Cpu) : Except CpuError Cpu := do
  let addr := cpu.get_x_register
  let v ← cpu.read_byte addr
  .ok { cpu with d := v }

/-- LDXA - Load via X and advance: D = M(RX), RX++. -/
def execute_ldxa (cpu : Cpu) : Except CpuError Cpu := do
  let addr := cpu.get_x_register
  let v ← cpu.read_byte addr
  let cpu := { cpu with d := v }
  .ok (cpu.set_x_register (wrapping_add16 addr 1))

/-- STR - Store via N: M(RN) = D. -/
def execute_str (cpu : Cpu) (n : Nat) : Except CpuError Cpu := do
  let addr ← cpu.get_register n
  cpu.write_byte addr cpu.d

/-- STXD - Store via X and decrement: M(RX) = D, RX--. -/
def execute_stxd (cpu : Cpu) : Except CpuError Cpu := do
  let addr := cpu.get_x_register
  let cpu ← cpu.write_byte addr cpu.d
  .ok (cpu.set_x_register (wrapping_sub16 addr 1))

/-- LDI - Load immediate: D = immediate. -/
def execute_ldi (cpu : Cpu) (immediate : Nat) : Except CpuError Cpu :=
  .ok { cpu with d := immediate }

/-- INC - Increment register: RN++. -/
def execute_inc (cpu : Cpu) (n : Nat) : Except CpuError Cpu := do
  let val ← cpu.get_register n
  cpu.set_register n (wrapping_add16 val 1)

/-- DEC - Decrement register: RN--. -/
def execute_dec (cpu : Cpu) (n : Nat) : Except CpuError Cpu := do
  let val ← cpu.get_register n
  cpu.set_register n (wrapping_sub16 val 1)

/-- IRX - Increment register X: RX++. -/
def execute_irx (cpu : Cpu) : Except CpuError Cpu :=
  .ok (cpu.set_x_register (wrapping_add16 cpu.get_x_register 1))

/-- GLO - Get low byte of RN: D = RN.low. -/
def execute_glo (cpu : Cpu) (n : Nat) : Except CpuError Cpu := do
  let val ← cpu.get_register n
  .ok { cpu with d := val &&& 0xFF }

/-- GHI - Get high byte of RN: D = RN.high. -/
def execute_ghi (cpu : Cpu) (n : Nat) : Except CpuError Cpu := do
  let val ← cpu.get_register n
  .ok { cpu with d := (val >>> 8) &&& 0xFF }

/-- PLO - Put low byte: RN.low = D. -/
def execute_plo (cpu : Cpu) (n : Nat) : Except CpuError Cpu := do
  let val ← cpu.get_register n
  cpu.set_register n ((val &&& 0xFF00) ||| cpu.d)

/-- PHI - Put high byte: RN.high = D. -/
def execute_phi (cpu : Cpu) (n : Nat) : Except CpuError Cpu := do
  let val ← cpu.get_register n
  cpu.set_register n ((val &&& 0x00FF) ||| (cpu.d <<< 8))

/-- SEP - Set P: select RN as program counter (`n & 0x0F`). -/
def execute_sep (cpu : Cpu) (n : Nat) : Except CpuError Cpu :=
  .ok { cpu with p := ⟨n % 16, by omega⟩ }

/-- SEX - Set X: select RN as index register (`n & 0x0F`). -/
def execute_sex (cpu : Cpu) (n : Nat) : Except CpuError Cpu :=
  .ok { cpu with x := ⟨n % 16, by omega⟩ }

/-- ADD - Add: D = D + M(RX). -/
def execute_add (cpu : Cpu) : Except CpuError Cpu := do
  let addr := cpu.get_x_register
  let mem_val ← cpu.read_byte addr
  let (result, carry) := overflowing_add8 cpu.d mem_val
  .ok { cpu with d := result, df := carry }

/-- ADI - Add immediate: D = D + immediate. -/
def execute_adi (cpu : Cpu) (immediate : Nat) : Except CpuError Cpu :=
  let (result, carry) := overflowing_add8 cpu.d immediate
  .ok { cpu with d := result, df := carry }

/-- ADC - Add with carry: D = D + M(RX) + DF. -/
def execute_adc (cpu : Cpu) : Except CpuError Cpu := do
  let addr := cpu.get_x_register
  let mem_val ← cpu.read_byte addr
  let carry_in := if cpu.df then 1 else 0
  let (temp, carry1) := overflowing_add8 cpu.d mem_val
  let (result, carry2) := overflowing_add8 temp carry_in
  .ok { cpu with d := result, df := carry1 || carry2 }

/-- ADCI - Add with carry immediate. -/
def execute_adci (cpu : Cpu) (immediate : Nat) : Except CpuError Cpu :=
  let carry_in := if cpu.df then 1 else 0
  let (temp, carry1) := overflowing_add8 cpu.d immediate
  let (result, carry2) := overflowing_add8 temp carry_in
  .ok { cpu with d := result, df := carry1 || carry2 }

/-- SD - Subtract D: D = M(RX) - D, DF = no borrow. -/
def execute_sd (cpu : Cpu) : Except CpuError Cpu := do
  let addr := cpu.get_x_register
  let mem_val ← cpu.read_byte addr
  let (result, borrow) := overflowing_sub8 mem_val cpu.d
  .ok { cpu with d := result, df := !borrow }

/-- SDI - Subtract D immediate: D = immediate - D. -/
def execute_sdi (cpu : Cpu) (immediate : Nat) : Except CpuError Cpu :=
  let (result, borrow) := overflowing_sub8 immediate cpu.d
  .ok { cpu with d := result, df := !borrow }

/-- SM - Subtract memory: D = D - M(RX), DF = no borrow. -/
def execute_sm (cpu : Cpu) : Except CpuError Cpu := do
  let addr := cpu.get_x_register
  let mem_val ← cpu.read_byte addr
  let (result, borrow) := overflowing_sub8 cpu.d mem_val
  .ok { cpu with d := result, df := !borrow }

/-- SMI - Subtract memory immediate: D = D - immediate. -/
def execute_smi (cpu : Cpu) (immediate : Nat) : Except CpuError Cpu :=
  let (result, borrow) := overflowing_sub8 cpu.d immediate
  .ok { cpu with d := result, df := !borrow }

/-- AND - Logical AND: D = D & M(RX). -/
def execute_and (cpu : Cpu) : Except CpuError Cpu := do
  let mem_val ← cpu.read_byte cpu.get_x_register
  .ok { cpu with d := cpu.d &&& mem_val }

/-- ANI - AND immediate. -/
def execute_ani (cpu : Cpu) (immediate : Nat) : Except CpuError Cpu :=
  .ok { cpu with d := cpu.d &&& immediate }

/-- OR - Logical OR: D = D | M(RX). -/
def execute_or (cpu : Cpu) : Except CpuError Cpu := do
  let mem_val ← cpu.read_byte cpu.get_x_register
  .ok { cpu with d := cpu.d ||| mem_val }

/-- ORI - OR immediate. -/
def execute_ori (cpu : Cpu) (immediate : Nat) : Except CpuError Cpu :=
  .ok { cpu with d := cpu.d ||| immediate }

/-- XOR - Logical XOR: D = D ^ M(RX). -/
def execute_xor (cpu : Cpu) : Except CpuError Cpu := do
  let mem_val ← cpu.read_byte cpu.get_x_register
  .ok { cpu with d := cpu.d ^^^ mem_val }

/-- XRI - XOR immediate. -/
def execute_xri (cpu : Cpu) (immediate : Nat) : Except CpuError Cpu :=
  .ok { cpu with d := cpu.d ^^^ immediate }

/-- SHR - Shift right: D >> 1, bit 0 -> DF. -/
def execute_shr (cpu : Cpu) : Except CpuError Cpu :=
  .ok { cpu with df := decide ((cpu.d &&& 1) ≠ 0), d := cpu.d >>> 1 }

/-- SHL - Shift left: D << 1 (as u8), bit 7 -> DF. -/
def execute_shl (cpu : Cpu) : Except CpuError Cpu :=
  .ok { cpu with df := decide ((cpu.d &&& 0x80) ≠ 0), d := (cpu.d <<< 1) % 256 }

/-- SHRC - Shift right with carry: DF -> bit 7, bit 0 -> DF. -/
def execute_shrc (cpu : Cpu) : Except CpuError Cpu :=
  let old_carry := cpu.df
  let d := cpu.d >>> 1
  .ok { cpu with
        df := decide ((cpu.d &&& 1) ≠ 0)
        d := if old_carry then d ||| 0x80 else d }

/-- SHLC - Shift left with carry: DF -> bit 0, bit 7 -> DF. -/
def execute_shlc (cpu : Cpu) : Except CpuError Cpu :=
  let old_carry := cpu.df
  let d := (cpu.d <<< 1) % 256
  .ok { cpu with
        df := decide ((cpu.d &&& 0x80) ≠ 0)
        d := if old_carry then d ||| 1 else d }

/-- BR - Short branch: PC = (PC.high, offset). -/
def execute_br (cpu : Cpu) (offset : Nat) : Except CpuError Cpu :=
  let pc := cpu.get_pc
  let new_pc := (pc &&& 0xFF00) ||| offset
  .ok (cpu.set_pc new_pc)

/-- BZ - Branch if zero. -/
def execute_bz (cpu : Cpu) (offset : Nat) : Except CpuError Cpu :=
  if cpu.d = 0 then execute_br cpu offset else .ok cpu

/-- BNZ - Branch if not zero. -/
def execute_bnz (cpu : Cpu) (offset : Nat) : Except CpuError Cpu :=
  if cpu.d ≠ 0 then execute_br cpu offset else .ok cpu

/-- BDF - Branch if DF=1. -/
def execute_bdf (cpu : Cpu) (offset : Nat) : Except CpuError Cpu :=
  if cpu.df then execute_br cpu offset else .ok cpu

/-- BNF - Branch if DF=0. -/
def execute_bnf (cpu : Cpu) (offset : Nat) : Except CpuError Cpu :=
  if !cpu.df then execute_br cpu offset else .ok cpu

/-- BQ - Branch if Q=1. -/
def execute_bq (cpu : Cpu) (offset : Nat) : Except CpuError Cpu :=
  if cpu.q then execute_br cpu offset else .ok cpu

/-- BNQ - Branch if Q=0. -/
def execute_bnq (cpu : Cpu) (offset : Nat) : Except CpuError Cpu :=
  if !cpu.q then execute_br cpu offset else .ok cpu

/-- SKP - Skip: unconditionally skip next byte. -/
def execute_skp (cpu : Cpu) : Except CpuError Cpu :=
  .ok (cpu.set_pc (wrapping_add16 cpu.get_pc 1))

/-- LBR - Long branch: PC = address. -/
def execute_lbr (cpu : Cpu) (address : Nat) : Except CpuError Cpu :=
  .ok (cpu.set_pc address)

/-- LBZ - Long branch if zero. -/
def execute_lbz (cpu : Cpu) (address : Nat) : Except CpuError Cpu :=
  if cpu.d = 0 then .ok (cpu.set_pc address) else .ok cpu

/-- LBNZ - Long branch if not zero. -/
def execute_lbnz (cpu : Cpu) (address : Nat) : Except CpuError Cpu :=
  if cpu.d ≠ 0 then .ok (cpu.set_pc address) else .ok cpu

/-- LBDF - Long branch if DF=1. -/
def execute_lbdf (cpu : Cpu) (address : Nat) : Except CpuError Cpu :=
  if cpu.df then .ok (cpu.set_pc address) else .ok cpu

/-- LBNF - Long branch if DF=0. -/
def execute_lbnf (cpu : Cpu) (address : Nat) : Except CpuError Cpu :=
  if !cpu.df then .ok (cpu.set_pc address) else .ok cpu

/-- LBQ - Long branch if Q=1. -/
def execute_lbq (cpu : Cpu) (address : Nat) : Except CpuError Cpu :=
  if cpu.q then .ok (cpu.set_pc address) else .ok cpu

/-- LBNQ - Long branch if Q=0. -/
def execute_lbnq (cpu : Cpu) (address : Nat) : Except CpuError Cpu :=
  if !cpu.q then .ok (cpu.set_pc address) else .ok cpu

/-- LSKP - Long skip. -/
def execute_lskp (cpu : Cpu) : Except CpuError Cpu :=
  .ok (cpu.set_pc (wrapping_add16 cpu.get_pc 2))

/-- REQ - Reset Q. -/
def execute_req (cpu : Cpu) : Except CpuError Cpu :=
  .ok { cpu with q := false }

/-- SEQ - Set Q. -/
def execute_seq (cpu : Cpu) : Except CpuError Cpu :=
  .ok { cpu with q := true }

/-- The dispatch `match` inside `execute_instruction`: the listed
opcodes call their helpers, everything else falls into the source's
default arm ("Unimplemented instructions - just continue for now"). -/
def dispatch (cpu : Cpu) (instruction : Instruction) : Except CpuError Cpu :=
  match instruction.opcode with
  | .IDL => execute_idl cpu
  | .LDN => execute_ldn cpu instruction.register
  | .INC => execute_inc cpu instruction.register
  | .DEC => execute_dec cpu instruction.register
  | .LDA => execute_lda cpu instruction.register
  | .STR => execute_str cpu instruction.register
  | .GLO => execute_glo cpu instruction.register
  | .GHI => execute_ghi cpu instruction.register
  | .PLO => execute_plo cpu instruction.register
  | .PHI => execute_phi cpu instruction.register
  | .SEP => execute_sep cpu instruction.register
  | .SEX => execute_sex cpu instruction.register
  | .LDX => execute_ldx cpu
  | .LDXA => execute_ldxa cpu
  | .STXD => execute_stxd cpu
  | .IRX => execute_irx cpu
  | .LDI => execute_ldi cpu (instruction.immediate.getD 0)
  | .ADD => execute_add cpu
  | .ADI => execute_adi cpu (instruction.immediate.getD 0)
  | .ADC => execute_adc cpu
  | .ADCI => execute_adci cpu (instruction.immediate.getD 0)
  | .SD => execute_sd cpu
  | .SDI => execute_sdi cpu (instruction.immediate.getD 0)
  | .SM => execute_sm cpu
  | .SMI => execute_smi cpu (instruction.immediate.getD 0)
  | .AND => execute_and cpu
  | .ANI => execute_ani cpu (instruction.immediate.getD 0)
  | .OR => execute_or cpu
  | .ORI => execute_ori cpu (instruction.immediate.getD 0)
  | .XOR => execute_xor cpu
  | .XRI => execute_xri cpu (instruction.immediate.getD 0)
  | .SHR => execute_shr cpu
  | .SHL => execute_shl cpu
  | .SHRC => execute_shrc cpu
  | .SHLC => execute_shlc cpu
  | .BR => execute_br cpu (instruction.immediate.getD 0)
  | .BZ => execute_bz cpu (instruction.immediate.getD 0)
  | .BNZ => execute_bnz cpu (instruction.immediate.getD 0)
  | .BDF => execute_bdf cpu (instruction.immediate.getD 0)
  | .BNF => execute_bnf cpu (instruction.immediate.getD 0)
  | .BQ => execute_bq cpu (instruction.immediate.getD 0)
  | .BNQ => execute_bnq cpu (instruction.immediate.getD 0)
  | .SKP => execute_skp cpu
  | .LBR => execute_lbr cpu (instruction.address.getD 0)
  | .LBZ => execute_lbz cpu (instruction.address.getD 0)
  | .LBNZ => execute_lbnz cpu (instruction.address.getD 0)
  | .LBDF => execute_lbdf cpu (instruction.address.getD 0)
  | .LBNF => execute_lbnf cpu (instruction.address.getD 0)
  | .LBQ => execute_lbq cpu (instruction.address.getD 0)
  | .LBNQ => execute_lbnq cpu (instruction.address.getD 0)
  | .LSKP => execute_lskp cpu
  | .REQ => execute_req cpu
  | .SEQ => execute_seq cpu
  | .NOP => .ok cpu
  | _ => .ok cpu   -- unimplemented instructions - just continue for now

/-- `execute_instruction`: halt check, dispatch, then increment the
cycle and instruction counters.  Returns the Rust result together with
the final `&mut Cpu` value (unchanged on any error, see the module
comment). -/
def execute_instruction (cpu : Cpu) (instruction : Instruction) :
    Except CpuError Unit × Cpu :=
  if cpu.is_halted then (.error .Halted, cpu)
  else
    match dispatch cpu instruction with
    | .error e => (.error e, cpu)
    | .ok c =>
      (.ok (), { c with
                 cycles := c.cycles + 1
                 instructions_executed := c.instructions_executed + 1 })

/-! ## String helpers

Rust string operations used by the assembler and error formatting,
modelled directly on `List Char` (Lean's `String` is a wrapper around
`List Char`, so these reduce well in the kernel). -/

/-- Split a character list at every occurrence of `sep`
(Rust `str::split` with a single-char pattern; also the backbone of
`str::find`-based slicing). -/
def splitListOn (sep : Char) : List Char → List (List Char)
  | [] => [[]]
  | c :: cs =>
    let rest := splitListOn sep cs
    if c = sep then [] :: rest
    else
      match rest with
      | [] => [[c]]
      | r :: rs => (c :: r) :: rs

/-- Characters before the first occurrence of `sep` (`line[..idx]` for
`idx = line.find(sep)`); the whole list when `sep` is absent. -/
def before_first (sep : Char) : List Char → List Char
  | [] => []
  | c :: cs => if c = sep then [] else c :: before_first sep cs

/-- Characters after the first occurrence of `sep` (`line[idx+1..]`);
empty when `sep` is absent (only used after a containment check). -/
def after_first (sep : Char) : List Char → List Char
  | [] => []
  | c :: cs => if c = sep then cs else after_first sep cs

/-- Does the list end with the given character? -/
def listEndsWith (l : List Char) (c : Char) : Bool := l.getLast? == some c

/-- Rust `str::lines`: split on `'\n'`, drop a final empty piece
produced by a trailing newline, and strip a trailing `'\r'` from each
line. -/
def rust_lines (source : String) : List String :=
  if source.data.isEmpty then []
  else
    let parts := splitListOn '\n' source.data
    let parts := if listEndsWith source.data '\n' then parts.dropLast else parts
    parts.map (fun l => String.mk (if listEndsWith l '\r' then l.dropLast else l))

/-- Rust `str::trim` (whitespace from both ends). -/
def rust_trim (s : String) : String :=
  String.mk (((s.data.dropWhile Char.isWhitespace).reverse.dropWhile
      Char.isWhitespace).reverse)

/-- Rust `str::to_uppercase` (ASCII-relevant part). -/
def rust_to_uppercase (s : String) : String :=
  String.mk (s.data.map Char.toUpper)

/-- Rust `str::split_whitespace`: maximal non-whitespace runs. -/
def split_whitespace_on (p : Char → Bool) : List Char → List (List Char)
  | [] => [[]]
  | c :: cs =>
    let rest := split_whitespace_on p cs
    if p c then [] :: rest
    else
      match rest with
      | [] => [[c]]
      | r :: rs => (c :: r) :: rs

/-- Rust `str::split_whitespace` on a string. -/
def split_whitespace (s : String) : List String :=
  ((split_whitespace_on Char.isWhitespace s.data).filter
      (fun l => !l.isEmpty)).map String.mk

/-- `char::is_ascii_hexdigit`. -/
def is_ascii_hexdigit (c : Char) : Bool :=
  (48 ≤ c.toNat && c.toNat ≤ 57) ||
  (97 ≤ c.toNat && c.toNat ≤ 102) ||
  (65 ≤ c.toNat && c.toNat ≤ 70)

/-- `char::to_digit(16)`. -/
def to_digit16 (c : Char) : Option Nat :=
  if 48 ≤ c.toNat && c.toNat ≤ 57 then some (c.toNat - 48)
  else if 65 ≤ c.toNat && c.toNat ≤ 70 then some (c.toNat - 55)
  else if 97 ≤ c.toNat && c.toNat ≤ 102 then some (c.toNat - 87)
  else none

/-- Value of a digit character in the given radix, if valid. -/
def digit_val (radix : Nat) (c : Char) : Option Nat :=
  match to_digit16 c with
  | some v => if v < radix then some v else none
  | none => none

/-- `u16::from_str_radix`: optional leading `+`, at least one digit,
error (`none`) on any invalid digit or on overflow past `u16::MAX`. -/
def from_str_radix (s : List Char) (radix : Nat) : Option Nat :=
  let s := match s with | '+' :: rest => rest | other => other
  if s.isEmpty then none
  else
    s.foldl
      (fun acc c =>
        match acc, digit_val radix c with
        | some a, some v =>
          if a * radix + v ≤ 65535 then some (a * radix + v) else none
        | _, _ => none)
      (some 0)

/-- Uppercase hex digit for `n < 16`. -/
def hex_digit (n : Nat) : Char :=
  if n < 10 then Char.ofNat (48 + n) else Char.ofNat (55 + n)

/-- Digits of the uppercase hex rendering, with explicit fuel so the
recursion is structural (the fuel `n + 1` always suffices, as a number
has at most `n + 1` hex digits). -/
def hex_str_aux (d : Nat → Char) : Nat → Nat → List Char
  | 0, _ => []
  | fuel + 1, n =>
    if n < 16 then [d n]
    else hex_str_aux d fuel (n / 16) ++ [d (n % 16)]

/-- Uppercase hex rendering of a `Nat` (Rust `{:X}`). -/
def hex_str (n : Nat) : String := String.mk (hex_str_aux hex_digit (n + 1) n)

/-- Lowercase hex digit for `n < 16`. -/
def hex_digit_lower (n : Nat) : Char :=
  if n < 10 then Char.ofNat (48 + n) else Char.ofNat (87 + n)

/-- Lowercase hex rendering of a `Nat` (Rust `{:x}`). -/
def hex_str_lower (n : Nat) : String :=
  String.mk (hex_str_aux hex_digit_lower (n + 1) n)

/-- Decidable equality for `Except` results. -/
instance exceptDecEq {ε α : Type} [DecidableEq ε] [DecidableEq α] :
    DecidableEq (Except ε α) := fun x y =>
  match x, y with
  | .ok a, .ok b =>
    if h : a = b then .isTrue (by rw [h]) else .isFalse (by simp [h])
  | .error a, .error b =>
    if h : a = b then .isTrue (by rw [h]) else .isFalse (by simp [h])
  | .ok _, .error _ => .isFalse (by simp)
  | .error _, .ok _ => .isFalse (by simp)

/-- Zero-pad on the left to the given width (Rust `{:0NX}`). -/
def pad_left_zeros (width : Nat) (s : String) : String :=
  if s.data.length < width then
    String.mk (List.replicate (width - s.data.length) '0') ++ s
  else s

/-- Pad with spaces on the right to the given width
(Rust's left-justifying `{:<N}`). -/
def pad_right_spaces (width : Nat) (s : String) : String :=
  if s.data.length < width then
    s ++ String.mk (List.replicate (width - s.data.length) ' ')
  else s

/-- Rust `{:04X}`. -/
def hex4 (n : Nat) : String := pad_left_zeros 4 (hex_str n)

/-- Rust `{:02X}`. -/
def hex2 (n : Nat) : String := pad_left_zeros 2 (hex_str n)

/-- Rust `{:#06x}` (used by `CpuError`'s display strings). -/
def fmt_hash06x (n : Nat) : String := "0x" ++ pad_left_zeros 4 (hex_str_lower n)

/-- `CpuError`'s `thiserror` display strings (`e.to_string()`). -/
def CpuError.to_string : CpuError → String
  | .InvalidRegister n => "Invalid register: " ++ toString n
  | .MemoryOutOfBounds addr => "Memory address out of bounds: " ++ fmt_hash06x addr
  | .InvalidInstruction addr => "Invalid instruction at address " ++ fmt_hash06x addr
  | .Halted => "CPU is halted"

/-! ## Single-step driver (`src/wasm.rs`, `Emulator::step`)

Decodes at the current PC, advances PC by the decoded instruction
length BEFORE execution ("simulates fetch cycle"), then executes.  The
three memory reads always succeed (`read_byte` is infallible), so
`instr_bytes` always has exactly three bytes and the `is_empty` check
in the source never fires. -/

/-- `Emulator::step` (state-relevant part; the serialized register
snapshot it returns to the UI is omitted). -/
def step (cpu : Cpu) : Except String Unit × Cpu :=
  if cpu.halted then (.error "CPU is halted", cpu)
  else
    let pc := cpu.get_pc
    let instr_bytes := [cpu.memory (wrapping_add16 pc 0),
                        cpu.memory (wrapping_add16 pc 1),
                        cpu.memory (wrapping_add16 pc 2)]
    match Instruction.decode instr_bytes with
    | none => (.error "Failed to decode instruction", cpu)
    | some instruction =>
      let instruction_length := instruction.opcode.length
      let cpu := cpu.set_pc (wrapping_add16 pc instruction_length)
      match execute_instruction cpu instruction with
      | (.error e, c) => (.error e.to_string, c)
      | (.ok (), c) => (.ok (), c)

/-! ## Assembler (`src/assembler.rs`) -/

/-- `AssemblyError` from `src/assembler.rs`. -/
inductive AssemblyError where
  | InvalidInstruction (s : String)
  | InvalidRegister (s : String)
  | InvalidOperand (s : String)
  | UndefinedLabel (s : String)
  | ParseError (line : Nat) (message : String)
  deriving DecidableEq

/-- `AssemblyError`'s `thiserror` display strings (`e.to_string()`). -/
def AssemblyError.to_string : AssemblyError → String
  | .InvalidInstruction s => "Invalid instruction: " ++ s
  | .InvalidRegister s => "Invalid register: " ++ s
  | .InvalidOperand s => "Invalid operand: " ++ s
  | .UndefinedLabel s => "Undefined label: " ++ s
  | .ParseError line message =>
    "Parse error on line " ++ toString line ++ ": " ++ message

/-- `AssemblyOutput`: machine code plus disassembly listing. -/
structure AssemblyOutput where
  machine_code : List Nat
  disassembly : List String
  deriving DecidableEq

/-- `strip_comments`: everything after the first `;`, or failing that
the first `#`, is dropped (`find(';').or_else(|| find('#'))`). -/
def strip_comments (line : String) : String :=
  if line.data.contains ';' then String.mk (before_first ';' line.data)
  else if line.data.contains '#' then String.mk (before_first '#' line.data)
  else line

/-- `parse_register`: `R` + one hex digit, or a bare hex digit. -/
def parse_register (s : String) : Except AssemblyError Nat :=
  let s := rust_to_uppercase (rust_trim s)
  let num_str := match s.data with
                 | 'R' :: rest => rest   -- strip the R if present
                 | other => other
  match num_str with
  | [c] =>
    match to_digit16 c with
    | some value =>
      if value ≤ 15 then .ok value
      else .error (.InvalidRegister ("Register must be R0-RF or 0-F, got: " ++ s))
    | none => .error (.InvalidRegister ("Register must be R0-RF or 0-F, got: " ++ s))
  | _ => .error (.InvalidRegister ("Register must be R0-RF or 0-F, got: " ++ s))

/-- `parse_number`: `0x`/`0X` or `$` prefixed hex, all-hex-digit
strings tried as hex first with decimal fallback, else decimal.
Commas are removed first. -/
def parse_number (s : String) : Except AssemblyError Nat :=
  let sl := (rust_trim s).data.filter (fun c => c ≠ ',')   -- s.replace(',', "")
  match sl with
  | '0' :: 'x' :: rest =>
    match from_str_radix rest 16 with
    | some v => .ok v
    | none => .error (.InvalidOperand ("Invalid hex number: " ++ String.mk sl))
  | '0' :: 'X' :: rest =>
    match from_str_radix rest 16 with
    | some v => .ok v
    | none => .error (.InvalidOperand ("Invalid hex number: " ++ String.mk sl))
  | '$' :: rest =>
    match from_str_radix rest 16 with
    | some v => .ok v
    | none => .error (.InvalidOperand ("Invalid hex number: " ++ String.mk sl))
  | _ =>
    if sl.all is_ascii_hexdigit then
      match from_str_radix sl 16 with
      | some v => .ok v
      | none =>
        match from_str_radix sl 10 with
        | some v => .ok v
        | none => .error (.InvalidOperand ("Invalid number: " ++ String.mk sl))
    else
      match from_str_radix sl 10 with
      | some v => .ok v
      | none => .error (.InvalidOperand ("Invalid number: " ++ String.mk sl))

/-- `get_instruction_length`: instruction length from the mnemonic
alone. -/
def get_instruction_length (line : String) : Except AssemblyError Nat :=
  match split_whitespace line with
  | [] => .ok 0
  | w :: _ =>
    let mnemonic := rust_to_uppercase w
    if ([ "IDL", "IRX", "RET", "DIS", "LDXA", "STXD", "ADC", "SDB", "SHRC", "SMB",
          "SAV", "MARK", "REQ", "SEQ", "NOP", "LDX", "OR", "AND", "XOR", "ADD", "SD",
          "SHR", "SM", "SHL", "LDN", "INC", "DEC", "LDA", "STR", "GLO", "GHI", "PLO",
          "PHI", "SEP", "SEX", "OUT", "INP" ] : List String).contains mnemonic then
      .ok 1
    else if ([ "BR", "BQ", "BZ", "BDF", "B1", "B2", "B3", "B4", "SKP", "BNQ", "BNZ",
          "BNF", "BN1", "BN2", "BN3", "BN4", "LDI", "ORI", "ANI", "XRI", "ADI", "SDI",
          "SMI", "ADCI", "SDBI", "SHLC", "SMBI" ] : List String).contains mnemonic then
      .ok 2
    else if ([ "LBR", "LBQ", "LBZ", "LBDF", "LSNQ", "LSNZ", "LSNF", "LSKP", "LBNQ",
          "LBNZ", "LBNF", "LSIE", "LSQ", "LSZ", "LSDF" ] : List String).contains mnemonic then
      .ok 3
    else
      .error (.InvalidInstruction mnemonic)

/-- `assemble_register_op`: opcode with the register in the low
nibble. -/
def assemble_register_op (base_opcode : Nat) (parts : List String) :
    Except AssemblyError (List Nat) :=
  match parts with
  | _ :: arg :: _ => do
    let reg ← parse_register arg
    .ok [base_opcode ||| reg]
  | _ => .error (.InvalidOperand "Register operand required")

/-- `assemble_immediate`: opcode plus immediate byte (`value as u8`). -/
def assemble_immediate (opcode : Nat) (parts : List String) :
    Except AssemblyError (List Nat) :=
  match parts with
  | _ :: arg :: _ => do
    let value ← parse_number arg
    .ok [opcode, value % 256]
  | _ => .error (.InvalidOperand "Immediate value required")

/-- `assemble_short_branch`: label (low byte of its address) or parsed
number as the offset byte. -/
def assemble_short_branch (opcode : Nat) (parts : List String)
    (labels : List (String × Nat)) : Except AssemblyError (List Nat) :=
  match parts with
  | _ :: t :: _ =>
    let target := rust_to_uppercase t
    match labels.lookup target with
    | some addr => .ok [opcode, addr % 256]   -- low byte of the address
    | none => do
      let v ← parse_number t
      .ok [opcode, v % 256]
  | _ => .error (.InvalidOperand "Branch target required")

/-- `assemble_long_branch`: label or parsed number, emitted big-endian. -/
def assemble_long_branch (opcode : Nat) (parts : List String)
    (labels : List (String × Nat)) : Except AssemblyError (List Nat) :=
  match parts with
  | _ :: t :: _ => do
    let target := rust_to_uppercase t
    let address ← (match labels.lookup target with
                   | some addr => .ok addr
                   | none => parse_number t)
    .ok [opcode, (address >>> 8) % 256, address % 256]
  | _ => .error (.InvalidOperand "Branch target required")

/-- `assemble_instruction`: one instruction line to bytes. -/
def assemble_instruction (line : String) (labels : List (String × Nat)) :
    Except AssemblyError (List Nat) :=
  match split_whitespace line with
  | [] => .ok []
  | w :: restParts =>
    let parts := w :: restParts
    match rust_to_uppercase w with
    -- No-operand instructions
    | "IDL" => .ok [0x00]
    | "IRX" => .ok [0x60]
    | "RET" => .ok [0x70]
    | "DIS" => .ok [0x71]
    | "LDXA" => .ok [0x72]
    | "STXD" => .ok [0x73]
    | "ADC" => .ok [0x74]
    | "SDB" => .ok [0x75]
    | "SHRC" => .ok [0x76]
    | "SMB" => .ok [0x77]
    | "SAV" => .ok [0x78]
    | "MARK" => .ok [0x79]
    | "REQ" => .ok [0x7A]
    | "SEQ" => .ok [0x7B]
    | "NOP" => .ok [0xC4]
    | "LDX" => .ok [0xF0]
    | "OR" => .ok [0xF1]
    | "AND" => .ok [0xF2]
    | "XOR" => .ok [0xF3]
    | "ADD" => .ok [0xF4]
    | "SD" => .ok [0xF5]
    | "SHR" => .ok [0xF6]
    | "SM" => .ok [0xF7]
    | "SHL" => .ok [0xFE]
    -- Register-based instructions (1 byte)
    | "LDN" => assemble_register_op 0x00 parts
    | "INC" => assemble_register_op 0x10 parts
    | "DEC" => assemble_register_op 0x20 parts
    | "LDA" => assemble_register_op 0x40 parts
    | "STR" => assemble_register_op 0x50 parts
    | "OUT" => assemble_register_op 0x60 parts
    | "INP" => assemble_register_op 0x68 parts
    | "GLO" => assemble_register_op 0x80 parts
    | "GHI" => assemble_register_op 0x90 parts
    | "PLO" => assemble_register_op 0xA0 parts
    | "PHI" => assemble_register_op 0xB0 parts
    | "SEP" => assemble_register_op 0xD0 parts
    | "SEX" => assemble_register_op 0xE0 parts
    -- Immediate instructions (2 bytes)
    | "LDI" => assemble_immediate 0xF8 parts
    | "ORI" => assemble_immediate 0xF9 parts
    | "ANI" => assemble_immediate 0xFA parts
    | "XRI" => assemble_immediate 0xFB parts
    | "ADI" => assemble_immediate 0xFC parts
    | "SDI" => assemble_immediate 0xFD parts
    | "SMI" => assemble_immediate 0xFF parts
    | "ADCI" => assemble_immediate 0x7C parts
    | "SDBI" => assemble_immediate 0x7D parts
    | "SHLC" => assemble_immediate 0x7E parts
    | "SMBI" => assemble_immediate 0x7F parts
    -- Short branch instructions (2 bytes)
    | "BR" => assemble_short_branch 0x30 parts labels
    | "BQ" => assemble_short_branch 0x31 parts labels
    | "BZ" => assemble_short_branch 0x32 parts labels
    | "BDF" => assemble_short_branch 0x33 parts labels
    | "B1" => assemble_short_branch 0x34 parts labels
    | "B2" => assemble_short_branch 0x35 parts labels
    | "B3" => assemble_short_branch 0x36 parts labels
    | "B4" => assemble_short_branch 0x37 parts labels
    | "SKP" => assemble_short_branch 0x38 parts labels
    | "BNQ" => assemble_short_branch 0x39 parts labels
    | "BNZ" => assemble_short_branch 0x3A parts labels
    | "BNF" => assemble_short_branch 0x3B parts labels
    | "BN1" => assemble_short_branch 0x3C parts labels
    | "BN2" => assemble_short_branch 0x3D parts labels
    | "BN3" => assemble_short_branch 0x3E parts labels
    | "BN4" => assemble_short_branch 0x3F parts labels
    -- Long branch instructions (3 bytes)
    | "LBR" => assemble_long_branch 0xC0 parts labels
    | "LBQ" => assemble_long_branch 0xC1 parts labels
    | "LBZ" => assemble_long_branch 0xC2 parts labels
    | "LBDF" => assemble_long_branch 0xC3 parts labels
    | "LSNQ" => assemble_long_branch 0xC5 parts labels
    | "LSNZ" => assemble_long_branch 0xC6 parts labels
    | "LSNF" => assemble_long_branch 0xC7 parts labels
    | "LSKP" => assemble_long_branch 0xC8 parts labels
    | "LBNQ" => assemble_long_branch 0xC9 parts labels
    | "LBNZ" => assemble_long_branch 0xCA parts labels
    | "LBNF" => assemble_long_branch 0xCB parts labels
    | "LSIE" => assemble_long_branch 0xCC parts labels
    | "LSQ" => assemble_long_branch 0xCD parts labels
    | "LSZ" => assemble_long_branch 0xCE parts labels
    | "LSDF" => assemble_long_branch 0xCF parts labels
    | mnemonic => .error (.InvalidInstruction mnemonic)

/-- The one disassembly line the source builds per instruction:
`format!("{:04X}: {:<8} | {}", addr, opcodes, instruction_line)`. -/
def format_disasm_line (addr : Nat) (bytes : List Nat)
    (instruction_line : String) : String :=
  hex4 addr ++ ": "
    ++ pad_right_spaces 8 (String.intercalate " " (bytes.map hex2))
    ++ " | " ++ instruction_line

/-- Pass 1 of `assemble`: collect labels, tracking the running address.
`HashMap::insert` becomes consing onto an association list (later
definitions shadow earlier ones under `List.lookup`, matching the
silent-overwrite behavior). -/
def pass1 : List String → List (String × Nat) → Nat →
    Except AssemblyError (List (String × Nat))
  | [], labels, _ => .ok labels
  | line0 :: rest, labels, current_address =>
    let line := rust_trim (strip_comments line0)
    if line.data.isEmpty then pass1 rest labels current_address
    else if line.data.contains ':' then
      let label := rust_to_uppercase (rust_trim (String.mk (before_first ':' line.data)))
      let labels := (label, current_address) :: labels
      let instr_rest := rust_trim (String.mk (after_first ':' line.data))
      if instr_rest.data.isEmpty then pass1 rest labels current_address
      else
        match get_instruction_length instr_rest with
        | .error e => .error e
        | .ok len => pass1 rest labels (current_address + len)
    else
      match get_instruction_length line with
      | .error e => .error e
      | .ok len => pass1 rest labels (current_address + len)

/-- Pass 2 of `assemble`: emit bytes and disassembly lines, wrapping
any per-instruction error in `ParseError` with the 1-based line
number. -/
def pass2 : List (Nat × String) → List (String × Nat) → List Nat → List String →
    Except AssemblyError (List Nat × List String)
  | [], _, machine_code, disassembly => .ok (machine_code, disassembly)
  | (line_num, line0) :: rest, labels, machine_code, disassembly =>
    let line := rust_trim (strip_comments line0)
    if line.data.isEmpty then pass2 rest labels machine_code disassembly
    else
      let instruction_line :=
        if line.data.contains ':' then rust_trim (String.mk (after_first ':' line.data))
        else line
      if instruction_line.data.isEmpty then pass2 rest labels machine_code disassembly
      else
        match assemble_instruction instruction_line labels with
        | .ok bytes =>
          let addr := machine_code.length
          let disasm := format_disasm_line addr bytes instruction_line
          pass2 rest labels (machine_code ++ bytes) (disassembly ++ [disasm])
        | .error e =>
          .error (.ParseError (line_num + 1) e.to_string)

/-- `assemble`: the two passes over the source lines. -/
def assemble (source : String) : Except AssemblyError AssemblyOutput := do
  let labels ← pass1 (rust_lines source) [] 0
  let (machine_code, disassembly) ← pass2 (rust_lines source).enum labels [] []
  .ok { machine_code := machine_code, disassembly := disassembly }

/-! ## Definitions used to state the claims -/

/-- The branch condition of each conditional (short or long) branch
opcode, read off the `execute_b*`/`execute_lb*` helpers; `BR`/`LBR`
branch unconditionally. -/
def branch_condition (op : Opcode) (cpu : Cpu) : Bool :=
  match op with
  | .BR | .LBR => true
  | .BZ | .LBZ => cpu.d == 0
  | .BNZ | .LBNZ => !(cpu.d == 0)
  | .BDF | .LBDF => cpu.df
  | .BNF | .LBNF => !cpu.df
  | .BQ | .LBQ => cpu.q
  | .BNQ | .LBNQ => !cpu.q
  | _ => false

/-- The skip condition of each conditional long-skip opcode, from the
opcode documentation in `src/cpu/instruction.rs` (e.g. `LSZ (CE) -
Long skip if D=0`). -/
def long_skip_condition (op : Opcode) (cpu : Cpu) : Bool :=
  match op with
  | .LSZ => cpu.d == 0
  | .LSNZ => !(cpu.d == 0)
  | .LSDF => cpu.df
  | .LSNF => !cpu.df
  | .LSQ => cpu.q
  | .LSNQ => !cpu.q
  | _ => false

/-- Does an `AssemblyError` carry a source line number?  Only the
`ParseError` variant has a line field. -/
def AssemblyError.has_line_number : AssemblyError → Bool
  | .ParseError _ _ => true
  | _ => false

/-- Disassembly listing determined by a sequence of
(instruction bytes, instruction text) items: one line per item, each
addressed at the running byte offset into the generated code. -/
def fmt_items (offset : Nat) : List (List Nat × String) → List String
  | [] => []
  | (bytes, line) :: rest =>
    format_disasm_line offset bytes line :: fmt_items (offset + bytes.length) rest

/-- The instruction text both passes extract from a raw source line:
comments stripped, trimmed, and the label prefix (everything up to the
first `:`) removed.  This names the expression that appears inline in
`pass1` and `pass2`. -/
def line_instruction_text (line0 : String) : String :=
  let line := rust_trim (strip_comments line0)
  if line.data.contains ':' then rust_trim (String.mk (after_first ':' line.data))
  else line

/-- The instruction texts of the lines that generate code: the
label-stripped instruction text of every line on which it is
non-empty, in source order (blank, comment-only and label-only lines
generate nothing). -/
def instruction_lines (lines : List String) : List String :=
  (lines.map line_instruction_text).filter (fun t => !t.data.isEmpty)

/-! ## Concrete states used by the witness theorems -/

/-- A non-halted CPU with accumulator 200 and all memory bytes 100. -/
def cpu_arith_example : Cpu :=
  { Cpu.new with d := 200, memory := fun _ => 100 }

/-- A non-halted CPU whose program-counter register R0 holds 0x1234. -/
def cpu_branch_example : Cpu :=
  { Cpu.new with registers := Function.update Cpu.new.registers 0 0x1234 }

/-- A CPU with the halt latch set. -/
def cpu_halted_example : Cpu :=
  { Cpu.new with halted := true }

/-- A non-halted CPU with `D = 1` and the `LSZ` opcode byte (0xCE) at
address 0 (so the skip condition `D = 0` does not hold). -/
def cpu_skip_example : Cpu :=
  { Cpu.new with d := 1, memory := Function.update Cpu.new.memory 0 0xCE }

end RCA1802

namespace RCA1802

/-! ## Helper lemmas -/

/-- A byte value has no bits in the 0xFF00 mask. -/
theorem and_FF00_eq_zero_of_lt (o : Nat) (ho : o < 256) : o &&& 0xFF00 = 0 := by
  have h : ∀ x : Fin 256, x.val &&& 0xFF00 = 0 := by decide
  exact h ⟨o, ho⟩

/-- Overwriting the low byte leaves the 0xFF00 part of a register
untouched. -/
theorem lor_low_preserves_high (x o : Nat) (ho : o < 256) :
    ((x &&& 0xFF00) ||| o) &&& 0xFF00 = x &&& 0xFF00 := by
  rw [Nat.and_distrib_right, Nat.and_assoc, Nat.and_self,
    and_FF00_eq_zero_of_lt o ho, Nat.or_zero]

/-- Decoding a three-byte slice whose first byte maps to a 3-byte
opcode yields that opcode with the big-endian address. -/
theorem decode_three (b0 b1 b2 : Nat) (op : Opcode)
    (h : Opcode.from_byte b0 = some op) (hlen : op.length = 3) :
    Instruction.decode [b0, b1, b2]
      = some (Instruction.with_address op (b0 &&& 0x0F) ((b1 <<< 8) ||| b2)) := by
  simp [Instruction.decode, h, hlen]

/-! ## Claim theorems -/

/-- C1: on every non-halted CPU with accumulator `a` and operand `b` in
0..255 (the operand being both the byte at `M(R(X))` and the immediate),
`ADD`/`ADI` set the accumulator to `(a+b) mod 256` with `DF = 1` iff
`a+b ≥ 256`, and `SM`/`SMI` set it to `(a−b) mod 256` with `DF = 1` iff
`a ≥ b`. -/
theorem arithmetic_add_subtract_laws (cpu : Cpu) (r a b : Nat)
    (hhalt : cpu.halted = false) (hd : cpu.d = a) (ha : a < 256) (hb : b < 256)
    (hmem : cpu.memory (cpu.registers cpu.x) = b) :
    ((execute_instruction cpu (Instruction.new .ADD r)).1 = .ok () ∧
     (execute_instruction cpu (Instruction.new .ADD r)).2.d = (a + b) % 256 ∧
     ((execute_instruction cpu (Instruction.new .ADD r)).2.df = true ↔ 256 ≤ a + b)) ∧
    ((execute_instruction cpu (Instruction.with_immediate .ADI r b)).1 = .ok () ∧
     (execute_instruction cpu (Instruction.with_immediate .ADI r b)).2.d = (a + b) % 256 ∧
     ((execute_instruction cpu (Instruction.with_immediate .ADI r b)).2.df = true ↔ 256 ≤ a + b)) ∧
    ((execute_instruction cpu (Instruction.new .SM r)).1 = .ok () ∧
     (((execute_instruction cpu (Instruction.new .SM r)).2.d : Int) = ((a : Int) - (b : Int)) % 256) ∧
     ((execute_instruction cpu (Instruction.new .SM r)).2.df = true ↔ b ≤ a)) ∧
    ((execute_instruction cpu (Instruction.with_immediate .SMI r b)).1 = .ok () ∧
     (((execute_instruction cpu (Instruction.with_immediate .SMI r b)).2.d : Int) = ((a : Int) - (b : Int)) % 256) ∧
     ((execute_instruction cpu (Instruction.with_immediate .SMI r b)).2.df = true ↔ b ≤ a)) := by
  refine ⟨⟨?_, ?_, ?_⟩, ⟨?_, ?_, ?_⟩, ⟨?_, ?_, ?_⟩, ⟨?_, ?_, ?_⟩⟩ <;>
    simp only [execute_instruction, Cpu.is_halted, hhalt, Bool.false_eq_true, if_false,
      dispatch, Instruction.new, Instruction.with_immediate, execute_add, execute_adi,
      execute_sm, execute_smi, Cpu.get_x_register, Cpu.read_byte, overflowing_add8,
      overflowing_sub8, bind, Except.bind, Option.getD, hmem, hd,
      decide_eq_true_eq, Bool.not_eq_true', decide_eq_false_iff_not, not_lt] <;>
    omega

/-- C1 witness: accumulator 200, operand 100 (memory byte at `M(R(X))`):
`ADD` gives 44 with carry set, `SM` gives 100 with `DF = 1` (no
borrow). -/
theorem arithmetic_add_subtract_laws_witness :
    (execute_instruction cpu_arith_example (Instruction.new .ADD 0)).2.d = 44 ∧
    (execute_instruction cpu_arith_example (Instruction.new .ADD 0)).2.df = true ∧
    (execute_instruction cpu_arith_example (Instruction.new .SM 0)).2.d = 100 ∧
    (execute_instruction cpu_arith_example (Instruction.new .SM 0)).2.df = true := by
  have h := arithmetic_add_subtract_laws cpu_arith_example 0 200 100 rfl rfl
    (by decide) (by decide) rfl
  refine ⟨?_, ?_, ?_, ?_⟩
  · rw [h.1.2.1]
  · exact h.1.2.2.mpr (by omega)
  · have hd := h.2.2.1.2.1
    omega
  · exact h.2.2.1.2.2.mpr (by omega)

/-- C2: opcode decoding is total over the byte domain 0..=255, and the
undocumented byte 0x68 aliases to the same operation as 0x60 (IRX). -/
theorem decode_opcode_total :
    (∀ b : Fin 256, (Opcode.from_byte b.val).isSome = true) ∧
    Opcode.from_byte 0x68 = Opcode.from_byte 0x60 ∧
    Opcode.from_byte 0x68 = some .IRX := by
  refine ⟨?_, rfl, rfl⟩
  decide

/-- C3: for every non-halted CPU, a taken short branch (BR, or a
conditional short branch whose condition holds) writes
`(old & 0xFF00) | offset` into the register selected by P, leaving its
high byte unchanged; a taken long branch writes the instruction's full
16-bit address into that register. -/
theorem branch_addressing (cpu : Cpu) (i : Instruction)
    (hhalt : cpu.halted = false) (himm : i.immediate.getD 0 < 256) :
    (i.opcode ∈ ([.BR, .BZ, .BNZ, .BDF, .BNF, .BQ, .BNQ] : List Opcode) →
      branch_condition i.opcode cpu = true →
      (execute_instruction cpu i).1 = .ok () ∧
      (execute_instruction cpu i).2.registers cpu.p
        = ((cpu.registers cpu.p) &&& 0xFF00) ||| (i.immediate.getD 0) ∧
      ((execute_instruction cpu i).2.registers cpu.p) &&& 0xFF00
        = (cpu.registers cpu.p) &&& 0xFF00) ∧
    (i.opcode ∈ ([.LBR, .LBZ, .LBNZ, .LBDF, .LBNF, .LBQ, .LBNQ] : List Opcode) →
      branch_condition i.opcode cpu = true →
      (execute_instruction cpu i).1 = .ok () ∧
      (execute_instruction cpu i).2.registers cpu.p = i.address.getD 0) := by
  obtain ⟨op, reg, imm, addr⟩ := i
  simp only at himm
  constructor
  · intro hop hcond
    simp only [List.mem_cons, List.not_mem_nil, or_false] at hop
    rcases hop with rfl|rfl|rfl|rfl|rfl|rfl|rfl <;>
      simp only [branch_condition, beq_iff_eq, Bool.not_eq_true',
        beq_eq_false_iff_ne, ne_eq] at hcond <;>
      refine ⟨?_, ?_, ?_⟩ <;>
      simp [execute_instruction, Cpu.is_halted, hhalt, dispatch, execute_br,
        execute_bz, execute_bnz, execute_bdf, execute_bnf, execute_bq, execute_bnq,
        Cpu.get_pc, Cpu.set_pc, hcond, Function.update_same] <;>
      exact lor_low_preserves_high _ _ himm
  · intro hop hcond
    simp only [List.mem_cons, List.not_mem_nil, or_false] at hop
    rcases hop with rfl|rfl|rfl|rfl|rfl|rfl|rfl <;>
      simp only [branch_condition, beq_iff_eq, Bool.not_eq_true',
        beq_eq_false_iff_ne, ne_eq] at hcond <;>
      refine ⟨?_, ?_⟩ <;>
      simp [execute_instruction, Cpu.is_halted, hhalt, dispatch, execute_lbr,
        execute_lbz, execute_lbnz, execute_lbdf, execute_lbnf, execute_lbq,
        execute_lbnq, Cpu.get_pc, Cpu.set_pc, hcond, Function.update_same]

/-- C3 witness: with R0 (the register P selects) holding 0x1234, a
taken `BR 0x56` yields 0x1256 and a taken `LBR 0x4321` yields 0x4321. -/
theorem branch_addressing_witness :
    (execute_instruction cpu_branch_example
        (Instruction.with_immediate .BR 0 0x56)).2.registers cpu_branch_example.p
      = 0x1256 ∧
    (execute_instruction cpu_branch_example
        (Instruction.with_address .LBR 0 0x4321)).2.registers cpu_branch_example.p
      = 0x4321 := by
  have h1 := (branch_addressing cpu_branch_example
    (Instruction.with_immediate .BR 0 0x56) rfl (by decide)).1 (by decide) (by decide)
  have h2 := (branch_addressing cpu_branch_example
    (Instruction.with_address .LBR 0 0x4321) rfl (by decide)).2 (by decide) (by decide)
  refine ⟨?_, ?_⟩
  · rw [h1.2.1]; decide
  · rw [h2.2]; rfl

/-- C4: with the halt latch set, `execute_instruction` fails with the
`Halted` error and the whole CPU state is unchanged; executing `IDL` on
a non-halted CPU succeeds and sets the halt latch. -/
theorem halt_latch_semantics (cpu : Cpu) (i : Instruction) :
    (cpu.halted = true → execute_instruction cpu i = (.error .Halted, cpu)) ∧
    (cpu.halted = false → i.opcode = .IDL →
      (execute_instruction cpu i).1 = .ok () ∧
      (execute_instruction cpu i).2.halted = true) := by
  constructor
  · intro h
    simp [execute_instruction, Cpu.is_halted, h]
  · intro h hop
    simp [execute_instruction, Cpu.is_halted, h, dispatch, hop, execute_idl, Cpu.halt]

/-- C4 witness: a halted CPU rejects `NOP` with the `Halted` error and
keeps its state; a fresh CPU executing `IDL` ends halted. -/
theorem halt_latch_semantics_witness :
    execute_instruction cpu_halted_example (Instruction.new .NOP 0)
      = (.error .Halted, cpu_halted_example) ∧
    (execute_instruction Cpu.new (Instruction.new .IDL 0)).2.halted = true :=
  ⟨(halt_latch_semantics cpu_halted_example (Instruction.new .NOP 0)).1 rfl,
   ((halt_latch_semantics Cpu.new (Instruction.new .IDL 0)).2 rfl rfl).2⟩

/-- C5: a step on a non-halted CPU whose PC points at a conditional
long-skip opcode (LSZ, LSNZ, LSDF, LSNF, LSQ, LSNQ) with the skip
condition not met ends with the program-counter register advanced past
the 16-bit operand (old PC + 3 mod 2^16): the fetch advance by the
decoded length (3) stands, and the executor does not jump. -/
theorem long_skip_advances_pc (cpu : Cpu) (op : Opcode)
    (hhalt : cpu.halted = false)
    (hbyte : Opcode.from_byte (cpu.memory (wrapping_add16 cpu.get_pc 0)) = some op)
    (hop : op ∈ ([.LSZ, .LSNZ, .LSDF, .LSNF, .LSQ, .LSNQ] : List Opcode))
    (hcond : long_skip_condition op cpu = false) :
    (step cpu).1 = .ok () ∧
    (step cpu).2.registers cpu.p = wrapping_add16 cpu.get_pc 3 := by
  simp only [List.mem_cons, List.not_mem_nil, or_false] at hop
  rcases hop with rfl|rfl|rfl|rfl|rfl|rfl <;>
    · have hdec := decode_three (cpu.memory (wrapping_add16 cpu.get_pc 0))
        (cpu.memory (wrapping_add16 cpu.get_pc 1))
        (cpu.memory (wrapping_add16 cpu.get_pc 2)) _ hbyte rfl
      unfold step
      rw [hhalt]
      simp only [Bool.false_eq_true, if_false, hdec]
      simp only [Opcode.length, Instruction.with_address, execute_instruction,
        Cpu.is_halted, Cpu.set_pc, Cpu.get_pc, dispatch]
      rw [hhalt]
      refine ⟨rfl, ?_⟩
      simp only [Bool.false_eq_true, if_false, Function.update_same]

/-- C5 witness: fresh CPU with `D = 1` and the LSZ byte 0xCE at address
0 (skip condition `D = 0` not met): the step succeeds and PC becomes
3. -/
theorem long_skip_advances_pc_witness :
    (step cpu_skip_example).1 = .ok () ∧
    (step cpu_skip_example).2.registers cpu_skip_example.p = 3 := by
  have h := long_skip_advances_pc cpu_skip_example .LSZ rfl (by decide)
    (by decide) (by decide)
  refine ⟨h.1, ?_⟩
  rw [h.2]; decide

/-- C10: executing any of the decodable-but-unimplemented opcodes on a
non-halted CPU succeeds and changes nothing except the cycle and
instruction counters, which each grow by exactly one. -/
theorem unimplemented_opcodes_noop (cpu : Cpu) (i : Instruction)
    (hhalt : cpu.halted = false)
    (hop : i.opcode ∈ ([.SDB, .SMB, .SDBI, .SMBI, .RET, .DIS, .OUT, .INP, .SAV, .MARK,
        .B1, .B2, .B3, .B4, .BN1, .BN2, .BN3, .BN4, .LSIE, .LSQ, .LSNQ, .LSZ, .LSNZ,
        .LSDF, .LSNF] : List Opcode)) :
    execute_instruction cpu i
      = (.ok (), { cpu with
                   cycles := cpu.cycles + 1
                   instructions_executed := cpu.instructions_executed + 1 }) := by
  obtain ⟨op, reg, imm, addr⟩ := i
  simp only [List.mem_cons, List.not_mem_nil, or_false] at hop
  rcases hop with rfl|rfl|rfl|rfl|rfl|rfl|rfl|rfl|rfl|rfl|rfl|rfl|rfl|rfl|rfl|rfl|rfl|rfl|rfl|rfl|rfl|rfl|rfl|rfl|rfl <;>
    simp [execute_instruction, Cpu.is_halted, hhalt, dispatch]

/-- C10 witness: `SDBI` on a fresh CPU only bumps the two counters. -/
theorem unimplemented_opcodes_noop_witness :
    execute_instruction Cpu.new (Instruction.new .SDBI 0)
      = (.ok (), { Cpu.new with
                   cycles := Cpu.new.cycles + 1
                   instructions_executed := Cpu.new.instructions_executed + 1 }) :=
  unimplemented_opcodes_noop Cpu.new (Instruction.new .SDBI 0) rfl (by decide)

/-- C6 (code bug): `get_base_opcode` is explicitly a placeholder in the
source ("This is a simplified version - would need full opcode table";
the default arm returns 0x00).  So the 1-byte round-trip fails: `STR`
has encoded length 1, yet encoding `STR R1` emits the placeholder byte
0x00, which decodes to `IDL` with register 0, not `STR`/1. -/
theorem encode_decode_roundtrip_fails_for_str :
    Opcode.STR.length = 1 ∧
    (Instruction.new .STR 1).encode = [0x00] ∧
    Instruction.decode ((Instruction.new .STR 1).encode)
      = some (Instruction.new .IDL 0) ∧
    Opcode.STR ≠ Opcode.IDL := by
  decide

/-- C7: assembling the three-line program with the backward label
`START` yields exactly `[0xF8, 0x10, 0xB3, 0x30, 0x00]`: `START`
resolves to address 0 and the short branch emits its low byte as the
offset. -/
theorem assemble_backward_label_example :
    (assemble "START: LDI 0x10\nPHI R3\nBR START").map AssemblyOutput.machine_code
      = .ok [0xF8, 0x10, 0xB3, 0x30, 0x00] := by
  decide

/-- A failure of `get_instruction_length` is an `InvalidInstruction`
whose payload is the uppercased first whitespace-token (the mnemonic)
of the offending line. -/
theorem get_instruction_length_error_shape (line : String) (e : AssemblyError)
    (h : get_instruction_length line = .error e) :
    ∃ w ws, split_whitespace line = w :: ws ∧
      e = .InvalidInstruction (rust_to_uppercase w) := by
  unfold get_instruction_length at h
  dsimp only at h
  split at h
  next heq => simp at h
  next w ws heq =>
    split at h
    · simp at h
    · split at h
      · simp at h
      · split at h
        · simp at h
        · injection h with h2
          exact ⟨w, ws, heq, h2.symm⟩

/-- A failure of pass 1 names a source line whose (label-stripped)
instruction text starts with a mnemonic token, and the error is the
unwrapped `InvalidInstruction` carrying that uppercased mnemonic — no
line number. -/
theorem pass1_error_shape : ∀ (lines : List String) (labels : List (String × Nat))
    (addr : Nat) (e : AssemblyError), pass1 lines labels addr = .error e →
    ∃ line0 w ws, line0 ∈ lines ∧
      split_whitespace (line_instruction_text line0) = w :: ws ∧
      e = .InvalidInstruction (rust_to_uppercase w) := by
  intro lines
  induction lines with
  | nil =>
    intro labels addr e h
    simp [pass1] at h
  | cons line0 rest ih =>
    intro labels addr e h
    unfold pass1 at h
    dsimp only at h
    split at h
    · obtain ⟨l, w, ws, hm, hs, he⟩ := ih _ _ _ h
      exact ⟨l, w, ws, List.mem_cons_of_mem _ hm, hs, he⟩
    · split at h
      next hcol =>
        simp at hcol
        split at h
        · obtain ⟨l, w, ws, hm, hs, he⟩ := ih _ _ _ h
          exact ⟨l, w, ws, List.mem_cons_of_mem _ hm, hs, he⟩
        · split at h
          next e' heq =>
            injection h with h2
            obtain ⟨w, ws, hs, he'⟩ := get_instruction_length_error_shape _ _ heq
            refine ⟨line0, w, ws, List.mem_cons_self _ _, ?_, h2.symm.trans he'⟩
            simpa [line_instruction_text, hcol] using hs
          next len heq =>
            obtain ⟨l, w, ws, hm, hs, he⟩ := ih _ _ _ h
            exact ⟨l, w, ws, List.mem_cons_of_mem _ hm, hs, he⟩
      next hcol =>
        simp at hcol
        split at h
        next e' heq =>
          injection h with h2
          obtain ⟨w, ws, hs, he'⟩ := get_instruction_length_error_shape _ _ heq
          refine ⟨line0, w, ws, List.mem_cons_self _ _, ?_, h2.symm.trans he'⟩
          simpa [line_instruction_text, hcol] using hs
        next len heq =>
          obtain ⟨l, w, ws, hm, hs, he⟩ := ih _ _ _ h
          exact ⟨l, w, ws, List.mem_cons_of_mem _ hm, hs, he⟩

/-- A failure of pass 2 is `ParseError (line_num + 1) msg` for an
enumerated source line whose own instruction text fails to assemble,
and `msg` is the display of exactly that per-instruction error. -/
theorem pass2_error_shape : ∀ (items : List (Nat × String))
    (labels : List (String × Nat)) (mc : List Nat) (dis : List String)
    (e : AssemblyError), pass2 items labels mc dis = .error e →
    ∃ line_num line0 e2, (line_num, line0) ∈ items ∧
      e = .ParseError (line_num + 1) e2.to_string ∧
      assemble_instruction (line_instruction_text line0) labels = .error e2 := by
  intro items
  induction items with
  | nil =>
    intro labels mc dis e h
    simp [pass2] at h
  | cons item rest ih =>
    obtain ⟨line_num, line0⟩ := item
    intro labels mc dis e h
    unfold pass2 at h
    dsimp only at h
    split at h
    · obtain ⟨n, l, e2, hm, he, ha⟩ := ih _ _ _ _ h
      exact ⟨n, l, e2, List.mem_cons_of_mem _ hm, he, ha⟩
    · split at h
      next hcol =>
        simp at hcol
        split at h
        · obtain ⟨n, l, e2, hm, he, ha⟩ := ih _ _ _ _ h
          exact ⟨n, l, e2, List.mem_cons_of_mem _ hm, he, ha⟩
        · split at h
          next bytes heq =>
            obtain ⟨n, l, e2, hm, he, ha⟩ := ih _ _ _ _ h
            exact ⟨n, l, e2, List.mem_cons_of_mem _ hm, he, ha⟩
          next e2 heq =>
            injection h with h2
            refine ⟨line_num, line0, e2, List.mem_cons_self _ _, h2.symm, ?_⟩
            simpa [line_instruction_text, hcol] using heq
      next hcol =>
        simp at hcol
        split at h
        next bytes heq =>
          obtain ⟨n, l, e2, hm, he, ha⟩ := ih _ _ _ _ h
          exact ⟨n, l, e2, List.mem_cons_of_mem _ hm, he, ha⟩
        next e2 heq =>
          injection h with h2
          refine ⟨line_num, line0, e2, List.mem_cons_self _ _, h2.symm, ?_⟩
          simpa [line_instruction_text, hcol] using heq

/-- C8 (amended): when `assemble` fails, either (pass 2) the error is
`ParseError (n + 1) msg` where line index `n` (0-based, so `n + 1` is
the 1-based number of the offending line) holds a source line whose own
label-stripped instruction text fails to assemble — malformed register,
malformed number, or missing operand — and `msg` is the display of
exactly that error; or (pass 1) the error is the raw
`InvalidInstruction` carrying the uppercased mnemonic token of an
offending source line and no line number.  In both cases no machine
code or disassembly is produced (the result is an error value with no
output). -/
theorem assemble_failure_taxonomy (source : String) (e : AssemblyError)
    (h : assemble source = .error e) :
    (∃ (labels : List (String × Nat)) (n : Nat) (line0 : String)
        (e2 : AssemblyError),
      pass1 (rust_lines source) [] 0 = .ok labels ∧
      (rust_lines source)[n]? = some line0 ∧
      e = .ParseError (n + 1) e2.to_string ∧
      assemble_instruction (line_instruction_text line0) labels = .error e2) ∨
    (∃ line0 w ws,
      line0 ∈ rust_lines source ∧
      split_whitespace (line_instruction_text line0) = w :: ws ∧
      e = .InvalidInstruction (rust_to_uppercase w) ∧
      e.has_line_number = false) := by
  unfold assemble at h
  rcases h1 : pass1 (rust_lines source) [] 0 with e1 | labels <;> rw [h1] at h <;>
    simp only [bind, Except.bind] at h
  · injection h with h2
    subst h2
    right
    obtain ⟨l, w, ws, hm, hs, rfl⟩ := pass1_error_shape _ _ _ _ h1
    exact ⟨l, w, ws, hm, hs, rfl, rfl⟩
  · rcases h2 : pass2 (rust_lines source).enum labels [] [] with e2 | pr <;>
      rw [h2] at h <;> simp only [bind, Except.bind] at h
    · injection h with h3
      subst h3
      left
      obtain ⟨n, l, err, hm, he, ha⟩ := pass2_error_shape _ _ _ _ _ h2
      exact ⟨labels, n, l, err, rfl, List.mem_enum_iff_getElem?.mp hm, he, ha⟩
    · obtain ⟨mc, dis⟩ := pr
      simp at h

/-- C8 counterexample: on the source `"INVALID"` (unknown mnemonic)
assembly fails during the pass-1 length scan with a raw
`InvalidInstruction` error that carries no source line number,
contradicting the claim that every parse failure reports the 1-based
line number. -/
theorem assemble_unknown_mnemonic_counterexample :
    assemble "INVALID" = .error (.InvalidInstruction "INVALID") ∧
    (AssemblyError.InvalidInstruction "INVALID").has_line_number = false := by
  constructor
  · decide
  · rfl

/-- C8 witness: applied to the source `"INC"` (missing register
operand), which fails in pass 2 as `ParseError` on line 1. -/
theorem assemble_failure_taxonomy_witness :
    (∃ (labels : List (String × Nat)) (n : Nat) (line0 : String)
        (e2 : AssemblyError),
      pass1 (rust_lines "INC") [] 0 = .ok labels ∧
      (rust_lines "INC")[n]? = some line0 ∧
      (AssemblyError.ParseError 1 "Invalid operand: Register operand required")
        = .ParseError (n + 1) e2.to_string ∧
      assemble_instruction (line_instruction_text line0) labels = .error e2) ∨
    (∃ line0 w ws,
      line0 ∈ rust_lines "INC" ∧
      split_whitespace (line_instruction_text line0) = w :: ws ∧
      (AssemblyError.ParseError 1 "Invalid operand: Register operand required")
        = .InvalidInstruction (rust_to_uppercase w) ∧
      (AssemblyError.ParseError 1
          "Invalid operand: Register operand required").has_line_number = false) :=
  assemble_failure_taxonomy "INC"
    (.ParseError 1 "Invalid operand: Register operand required") (by decide)

/-- A line whose comment-stripped trimmed text is empty has empty
instruction text. -/
theorem text_empty_of_line_empty (line0 : String)
    (hemp : (rust_trim (strip_comments line0)).data.isEmpty = true) :
    (line_instruction_text line0).data.isEmpty = true := by
  have hd : (rust_trim (strip_comments line0)).data = [] := by
    simpa [List.isEmpty_iff] using hemp
  simp [line_instruction_text, hd]

/-- `instruction_lines` on a cons: keep the head's instruction text iff
it is non-empty. -/
theorem instruction_lines_cons (line0 : String) (L : List String) :
    instruction_lines (line0 :: L)
      = if (line_instruction_text line0).data.isEmpty then instruction_lines L
        else line_instruction_text line0 :: instruction_lines L := by
  cases h : (line_instruction_text line0).data.isEmpty <;>
    simp [instruction_lines, h]

/-- Pass 2 emits exactly one disassembly line per generated
instruction: the emitted items' texts are, in order, precisely the
non-empty label-stripped instruction texts of the processed lines, each
item's bytes are the assembly of its own text, and each line is
formatted at the running byte offset relative to the machine code
already accumulated. -/
theorem pass2_spec : ∀ (items : List (Nat × String))
    (labels : List (String × Nat)) (mc : List Nat) (dis : List String)
    (mc' : List Nat) (dis' : List String),
    pass2 items labels mc dis = .ok (mc', dis') →
    ∃ its : List (List Nat × String),
      its.map Prod.snd = instruction_lines (items.map Prod.snd) ∧
      (∀ p ∈ its, assemble_instruction p.2 labels = .ok p.1) ∧
      mc' = mc ++ (its.map Prod.fst).flatten ∧
      dis' = dis ++ fmt_items mc.length its := by
  intro items
  induction items with
  | nil =>
    intro labels mc dis mc' dis' h
    simp only [pass2] at h
    injection h with h0
    cases h0
    exact ⟨[], by simp [instruction_lines], by simp, by simp, by simp [fmt_items]⟩
  | cons item rest ih =>
    obtain ⟨line_num, line0⟩ := item
    intro labels mc dis mc' dis' h
    unfold pass2 at h
    dsimp only at h
    split at h
    next hemp =>
      obtain ⟨its, hsnd, hok, h1, h2⟩ := ih _ _ _ _ _ h
      refine ⟨its, ?_, hok, h1, h2⟩
      rw [List.map_cons, instruction_lines_cons,
        if_pos (text_empty_of_line_empty _ hemp)]
      exact hsnd
    next hemp =>
      split at h
      next hcol =>
        simp at hcol
        split at h
        next hemp2 =>
          obtain ⟨its, hsnd, hok, h1, h2⟩ := ih _ _ _ _ _ h
          refine ⟨its, ?_, hok, h1, h2⟩
          have htxt : (line_instruction_text line0).data.isEmpty = true := by
            simp [line_instruction_text, hcol, hemp2]
          rw [List.map_cons, instruction_lines_cons, if_pos htxt]
          exact hsnd
        next hemp2 =>
          split at h
          next bytes heq =>
            obtain ⟨its, hsnd, hok, h1, h2⟩ := ih _ _ _ _ _ h
            have htxt : line_instruction_text line0
                = rust_trim (String.mk
                    (after_first ':' (rust_trim (strip_comments line0)).data)) := by
              simp [line_instruction_text, hcol]
            have hTne : (line_instruction_text line0).data.isEmpty = false := by
              rw [htxt]
              exact Bool.eq_false_iff.mpr hemp2
            refine ⟨(bytes, line_instruction_text line0) :: its, ?_, ?_, ?_, ?_⟩
            · rw [List.map_cons, List.map_cons, instruction_lines_cons, hTne]
              simp [hsnd]
            · intro p hp
              rcases List.mem_cons.mp hp with rfl | hp'
              · show assemble_instruction (line_instruction_text line0) labels
                    = .ok bytes
                rw [htxt]
                exact heq
              · exact hok _ hp'
            · simp [h1, List.append_assoc]
            · simp [h2, fmt_items, htxt, List.append_assoc, List.length_append]
          next e2 heq => exact Except.noConfusion h
      next hcol =>
        simp at hcol
        split at h
        next bytes heq =>
          obtain ⟨its, hsnd, hok, h1, h2⟩ := ih _ _ _ _ _ h
          have htxt : line_instruction_text line0
              = rust_trim (strip_comments line0) := by
            simp [line_instruction_text, hcol]
          have hTne : (line_instruction_text line0).data.isEmpty = false := by
            rw [htxt]
            exact Bool.eq_false_iff.mpr hemp
          refine ⟨(bytes, line_instruction_text line0) :: its, ?_, ?_, ?_, ?_⟩
          · rw [List.map_cons, List.map_cons, instruction_lines_cons, hTne]
            simp [hsnd]
          · intro p hp
            rcases List.mem_cons.mp hp with rfl | hp'
            · show assemble_instruction (line_instruction_text line0) labels
                  = .ok bytes
              rw [htxt]
              exact heq
            · exact hok _ hp'
          · simp [h1, List.append_assoc]
          · simp [h2, fmt_items, htxt, List.append_assoc, List.length_append]
        next e2 heq => exact Except.noConfusion h

/-- C9 (amended): for every successfully assembled source there is an
in-order, one-to-one correspondence between disassembly lines and
generated instructions: the emitted items' texts are exactly the
non-empty label-stripped instruction texts of the source lines (SOURCE
is the original instruction text with any label prefix stripped), each
item's bytes are that instruction's own assembly, the machine code is
their concatenation, and each item yields exactly one line of the
literal form `ADDR: BYTES | SOURCE` (built by `format_disasm_line`)
where ADDR is the 4-hex-digit offset of the instruction's first byte
into the generated machine code and BYTES is the space-separated
uppercase hex encoding of its bytes left-justified (padded on the
right with spaces, not left-padded) to 8 characters. -/
theorem disassembly_line_format (source : String) (out : AssemblyOutput)
    (h : assemble source = .ok out) :
    ∃ (labels : List (String × Nat)) (items : List (List Nat × String)),
      pass1 (rust_lines source) [] 0 = .ok labels ∧
      items.map Prod.snd = instruction_lines (rust_lines source) ∧
      (∀ p ∈ items, assemble_instruction p.2 labels = .ok p.1) ∧
      out.machine_code = (items.map Prod.fst).flatten ∧
      out.disassembly = fmt_items 0 items := by
  unfold assemble at h
  rcases h1 : pass1 (rust_lines source) [] 0 with e1 | labels <;> rw [h1] at h <;>
    simp only [bind, Except.bind] at h
  · exact Except.noConfusion h
  · rcases h2 : pass2 (rust_lines source).enum labels [] [] with e2 | pr <;>
      rw [h2] at h <;> simp only [bind, Except.bind] at h
    · exact Except.noConfusion h
    · obtain ⟨mc, dis⟩ := pr
      dsimp only at h
      injection h with h3
      obtain ⟨its, hsnd, hok, ha, hb⟩ := pass2_spec _ _ _ _ _ _ h2
      refine ⟨labels, its, rfl, ?_, hok, ?_, ?_⟩
      · rw [List.enum_map_snd] at hsnd
        exact hsnd
      · rw [← h3]
        simpa using ha
      · rw [← h3]
        simpa using hb

/-- C9 counterexample: the disassembly line for the one-instruction
source `"NOP"` pads the BYTES field with trailing spaces (Rust's
left-justifying `{:<8}`), not with leading spaces as "left-padded to 8
characters" asserts: the emitted line differs from the left-padded
rendering. -/
theorem disassembly_not_left_padded :
    assemble "NOP" = .ok ⟨[0xC4], ["0000: C4       | NOP"]⟩ ∧
    "0000: C4       | NOP" ≠ "0000:       C4 | NOP" := by
  constructor
  · decide
  · decide

/-- C9 witness: applied to the source `"LDI 0x42\nPHI R5\nIDL"`. -/
theorem disassembly_line_format_witness :
    ∃ (labels : List (String × Nat)) (items : List (List Nat × String)),
      pass1 (rust_lines "LDI 0x42\nPHI R5\nIDL") [] 0 = .ok labels ∧
      items.map Prod.snd = instruction_lines (rust_lines "LDI 0x42\nPHI R5\nIDL") ∧
      (∀ p ∈ items, assemble_instruction p.2 labels = .ok p.1) ∧
      ([0xF8, 0x42, 0xB5, 0x00] : List Nat) = (items.map Prod.fst).flatten ∧
      (["0000: F8 42    | LDI 0x42", "0002: B5       | PHI R5",
        "0003: 00       | IDL"] : List String) = fmt_items 0 items :=
  disassembly_line_format "LDI 0x42\nPHI R5\nIDL"
    ⟨[0xF8, 0x42, 0xB5, 0x00],
     ["0000: F8 42    | LDI 0x42", "0002: B5       | PHI R5",
      "0003: 00       | IDL"]⟩ (by decide)

end RCA1802
